import Mathlib

/-!
Verification of the voice-agent configuration app: a shallow embedding of the
agent-configuration form (zod validation, Supabase mutations, registry
reload) and of the per-card voice session controller, with theorems checking
the specification's claims against these embedded definitions.
-/

namespace Igloo

/-! ### JavaScript string trimming (String.prototype.trim, used by zod .trim()) -/

/-- Whitespace characters removed by the JavaScript trim used in the zod
schema (ASCII whitespace suffices for the values at play). -/
def isJsWS (c : Char) : Bool :=
  c = ' ' || c = '\t' || c = '\n' || c = '\r' || c.toNat = 11 || c.toNat = 12

/-- Remove leading and trailing whitespace from a character list. -/
def trimChars (l : List Char) : List Char :=
  (l.dropWhile isJsWS).rdropWhile isJsWS

/-- JavaScript-style trim on strings. -/
def jsTrim (s : String) : String := ⟨trimChars s.data⟩

/-- Whether a string starts or ends with a whitespace character. -/
def hasEdgeWS (s : String) : Bool :=
  (match s.data.head? with | some c => isJsWS c | none => false) ||
  (match s.data.getLast? with | some c => isJsWS c | none => false)

/-! ### The zod agent schema (src AgentConfig, agentSchema) -/

/-- One character of the agent-id character class [a-zA-Z0-9_-]. -/
def isAgentIdChar (c : Char) : Bool :=
  ('a' ≤ c && c ≤ 'z') || ('A' ≤ c && c ≤ 'Z') || ('0' ≤ c && c ≤ '9') ||
  c = '_' || c = '-'

/-- The regex of the schema: one or more characters of the class, anchored. -/
def matchesAgentIdPattern (s : String) : Bool :=
  !s.data.isEmpty && s.data.all isAgentIdChar

/-- Issues produced, in order, by the name chain: trim, min 1, max 100. -/
def nameIssues (s : String) : List String :=
  (if (jsTrim s).length < 1 then ["Agent name is required"] else []) ++
  (if (jsTrim s).length > 100 then ["Agent name must be less than 100 characters"] else [])

/-- Issues produced, in order, by the agentId chain: trim, regex, min 3, max 100. -/
def agentIdIssues (s : String) : List String :=
  (if matchesAgentIdPattern (jsTrim s) then []
   else ["Agent ID can only contain letters, numbers, hyphens, and underscores"]) ++
  (if (jsTrim s).length < 3 then ["Agent ID must be at least 3 characters"] else []) ++
  (if (jsTrim s).length > 100 then ["Agent ID must be less than 100 characters"] else [])

/-- Issues of the optional bio chain: absent passes; present is trimmed then max 1000. -/
def bioIssues : Option String → List String
  | none => []
  | some s => if (jsTrim s).length > 1000 then ["Bio must be less than 1000 characters"] else []

/-- Issues of the optional llm chain: absent passes; present is trimmed then max 100. -/
def llmIssues : Option String → List String
  | none => []
  | some s =>
    if (jsTrim s).length > 100 then ["LLM model name must be less than 100 characters"] else []

/-- The four fields handed to agentSchema.safeParse. -/
structure AgentFields where
  name : String
  agentId : String
  bio : Option String
  llm : Option String
deriving DecidableEq

/-- All issues of a parse, in zod's order: shape order (name, agentId, bio,
llm), and chain order within each field. -/
def agentSchemaIssues (f : AgentFields) : List String :=
  nameIssues f.name ++ agentIdIssues f.agentId ++ bioIssues f.bio ++ llmIssues f.llm

/-- The validated (trimmed) data of a successful parse. -/
structure ParsedAgent where
  name : String
  agentId : String
  bio : Option String
  llm : Option String
deriving DecidableEq

/-- Output value of a successful parse: every present field trimmed. -/
def trimmedParsed (f : AgentFields) : ParsedAgent :=
  ⟨jsTrim f.name, jsTrim f.agentId, f.bio.map jsTrim, f.llm.map jsTrim⟩

/-- agentSchema.safeParse: success with the trimmed data when no issue,
otherwise the ordered issue list. -/
def agentSchemaSafeParse (f : AgentFields) : Except (List String) ParsedAgent :=
  match agentSchemaIssues f with
  | [] => .ok (trimmedParsed f)
  | e :: es => .error (e :: es)

/-! ### The configuration panel (src AgentConfig component) -/

/-- An agent record as the client holds it (interface Agent). -/
structure Agent where
  id : String
  name : String
  agentId : String
  bio : String
  llm : Option String
deriving DecidableEq

/-- The form state of AgentConfig: the four controlled inputs and the
edit-mode flag holding the id being edited. -/
structure ConfigFormState where
  newAgentName : String
  newAgentId : String
  newAgentBio : String
  newAgentLlm : String
  editingAgentId : Option String
deriving DecidableEq

/-- The JavaScript idiom `s or undefined`: an empty string becomes absent. -/
def orUndefined (s : String) : Option String :=
  if s = "" then none else some s

/-- The JavaScript idiom `v or null` on an optional string: absent or empty
becomes null. -/
def orNull : Option String → Option String
  | none => none
  | some s => if s = "" then none else some s

/-- A mutation issued to the agents table. -/
inductive StoreCall where
  | insert (name agentId : String) (bio llm : Option String)
  | update (id : String) (name agentId : String) (bio llm : Option String)
  | delete (id : String)
deriving DecidableEq

/-- Observable effects of a configuration-panel handler, in program order. -/
inductive CEffect where
  | toast (title description : String) (destructive : Bool)
  | storeCall (c : StoreCall)
  | refresh
deriving DecidableEq

/-- The object passed to safeParse in addOrUpdateAgent. -/
def submittedFields (s : ConfigFormState) : AgentFields :=
  { name := s.newAgentName, agentId := s.newAgentId,
    bio := orUndefined s.newAgentBio, llm := orUndefined s.newAgentLlm }

/-- The store mutation addOrUpdateAgent issues: update when editing, insert
otherwise, with empty optional fields stored as null. -/
def mutationCall (editing : Option String) (v : ParsedAgent) : StoreCall :=
  match editing with
  | some id => .update id v.name v.agentId (orNull v.bio) (orNull v.llm)
  | none => .insert v.name v.agentId (orNull v.bio) (orNull v.llm)

/-- The success toast of addOrUpdateAgent. -/
def successToast (editing : Option String) (v : ParsedAgent) : CEffect :=
  match editing with
  | some _ => .toast "Agent Updated" (v.name ++ " has been updated successfully") false
  | none => .toast "Agent Added" (v.name ++ " has been added successfully") false

/-- The form after the success branch clears every field and leaves edit mode. -/
def clearedForm : ConfigFormState := ⟨"", "", "", "", none⟩

/-- addOrUpdateAgent: validate; on failure toast the first issue and stop;
otherwise issue the mutation; on store error toast it and stop; on success
toast, clear the form and request a refresh.  The store's answer is the
`storeError` input (none = resolved without error). -/
def addOrUpdateAgent (s : ConfigFormState) (storeError : Option String) :
    ConfigFormState × List CEffect :=
  match agentSchemaSafeParse (submittedFields s) with
  | .error issues =>
    (s, [.toast "Invalid Input" (issues.headD "") true])
  | .ok v =>
    let call := mutationCall s.editingAgentId v
    match storeError with
    | some msg => (s, [.storeCall call, .toast "Error" msg true])
    | none =>
      (clearedForm, [.storeCall call, successToast s.editingAgentId v, .refresh])

/-- editAgent: pre-fill every field from the record and enter edit mode. -/
def editAgent (a : Agent) : ConfigFormState :=
  ⟨a.name, a.agentId, a.bio, a.llm.getD "", some a.id⟩

/-- cancelEdit: clear the form back to create mode. -/
def cancelEdit (_s : ConfigFormState) : ConfigFormState := clearedForm

/-- removeAgent: issue the delete; on store error toast it and stop; on
success toast and request a refresh.  The form state is untouched. -/
def removeAgent (s : ConfigFormState) (id : String) (storeError : Option String) :
    ConfigFormState × List CEffect :=
  match storeError with
  | some msg => (s, [.storeCall (.delete id), .toast "Error" msg true])
  | none =>
    (s, [.storeCall (.delete id),
         .toast "Agent Removed" "Agent has been removed from the list" false,
         .refresh])

/-- The Add/Update button of the form carries no disabled attribute. -/
def addOrUpdateButtonDisabled (_s : ConfigFormState) : Bool := false

/-! ### The registry load (src Index, loadAgents) -/

/-- A row of the agents table as returned by the store. -/
structure AgentRow where
  id : String
  name : String
  agent_id : String
  bio : Option String
  llm : Option String
  created_at : Nat
deriving DecidableEq

/-- Mapping a row to the client record, null optionals becoming "". -/
def rowToAgent (r : AgentRow) : Agent :=
  ⟨r.id, r.name, r.agent_id, r.bio.getD "", some (r.llm.getD "")⟩

/-- The list query loadAgents issues. -/
structure ListQuery where
  table : String
  orderColumn : String
  ascending : Bool
deriving DecidableEq

/-- loadAgents selects from agents ordered by created_at ascending. -/
def agentsListQuery : ListQuery := ⟨"agents", "created_at", true⟩

/-- loadAgents: on error toast and keep the registry; on success replace the
snapshot wholesale with the mapped rows. -/
def loadAgents (result : Except String (List AgentRow)) (registry : List Agent) :
    List Agent × Option (String × String) :=
  match result with
  | .error msg => (registry, some ("Error loading agents", msg))
  | .ok rows => (rows.map rowToAgent, none)

/-! ### The voice session controller (src VoiceAgent component) -/

/-- The SDK session status mirrored by conversation.status. -/
inductive SessionStatus where
  | connected
  | connecting
  | disconnected
deriving DecidableEq

/-- Per-card controller state: the two useState booleans and the mirrored
SDK status. -/
structure ControllerState where
  isPermissionGranted : Bool
  isInitializing : Bool
  status : SessionStatus
deriving DecidableEq

/-- The state of a freshly mounted card: useState(false), useState(false),
no session yet. -/
def initialControllerState : ControllerState := ⟨false, false, .disconnected⟩

/-- Observable effects of a controller handler, in program order. -/
inductive VEvent where
  | getUserMedia
  | toast (title description : String) (destructive : Bool)
  | setInitializing (b : Bool)
  | startSessionCall (agentId : String) (connectionType : String)
  | endSessionCall
deriving DecidableEq

/-- requestMicrophoneAccess: ask getUserMedia; on grant set the flag and
toast; on denial toast only.  The browser's answer is the `granted` input. -/
def requestMicrophoneAccess (s : ControllerState) (granted : Bool) :
    ControllerState × List VEvent :=
  if granted then
    ({ s with isPermissionGranted := true },
     [.getUserMedia,
      .toast "Microphone Access Granted" "You can now start a conversation" false])
  else
    (s, [.getUserMedia,
         .toast "Microphone Access Required"
           "Please allow microphone access to use voice features" true])

/-- startConversation: without permission, only request it and return;
with permission, set initializing, start the session (status becomes
connected on success, a destructive toast fires on failure), and finally
reset initializing. -/
def startConversation (agentId : String) (s : ControllerState)
    (micGranted : Bool) (startOk : Bool) : ControllerState × List VEvent :=
  if !s.isPermissionGranted then
    requestMicrophoneAccess s micGranted
  else
    if startOk then
      ({ s with isInitializing := false, status := .connected },
       [.setInitializing true, .startSessionCall agentId "webrtc",
        .setInitializing false])
    else
      ({ s with isInitializing := false },
       [.setInitializing true, .startSessionCall agentId "webrtc",
        .toast "Failed to Start" "Could not connect to the agent" true,
        .setInitializing false])

/-- stopConversation: end the session. -/
def stopConversation (s : ControllerState) : ControllerState × List VEvent :=
  ({ s with status := .disconnected }, [.endSessionCall])

/-- The unmount cleanup of the effect: end the session iff still connected. -/
def unmountCleanup (s : ControllerState) : List VEvent :=
  if s.status = .connected then [.endSessionCall] else []

/-- The onConnect callback handed to useConversation: one toast. -/
def onConnectHandler (agentName : String) : List VEvent :=
  [.toast "Connected" ("Now speaking with " ++ agentName) false]

/-- The onError callback handed to useConversation: one destructive toast. -/
def onErrorHandler : List VEvent :=
  [.toast "Connection Error" "Failed to connect to the agent. Please try again." true]

/-- The onDisconnect callback: log only, no toast. -/
def onDisconnectHandler : List VEvent := []

/-- The Start button is disabled exactly while initializing. -/
def startButtonDisabled (s : ControllerState) : Bool := s.isInitializing

/-! ### Counting helpers over effect traces -/

/-- Number of toasts in a controller trace. -/
def countToasts (es : List VEvent) : Nat :=
  (es.filter (fun e => match e with | .toast _ _ _ => true | _ => false)).length

/-- Number of endSession calls in a controller trace. -/
def countEndSession (es : List VEvent) : Nat :=
  (es.filter (fun e => match e with | .endSessionCall => true | _ => false)).length

/-- Number of startSession calls in a controller trace. -/
def countStartSession (es : List VEvent) : Nat :=
  (es.filter (fun e => match e with | .startSessionCall _ _ => true | _ => false)).length

/-- Whether a controller trace contains a startSession call. -/
def hasStartSession (es : List VEvent) : Bool :=
  es.any (fun e => match e with | .startSessionCall _ _ => true | _ => false)

/-- Whether a controller trace sets the initializing flag to true. -/
def hasSetInitializingTrue (es : List VEvent) : Bool :=
  es.any (fun e => match e with | .setInitializing true => true | _ => false)

/-- Number of store mutations in a panel trace. -/
def countStoreCalls (es : List CEffect) : Nat :=
  (es.filter (fun e => match e with | .storeCall _ => true | _ => false)).length

/-- Whether every string field of a store mutation is free of edge whitespace. -/
def optNoEdgeWS : Option String → Bool
  | none => true
  | some t => !hasEdgeWS t

/-- All values a mutation writes carry no leading or trailing whitespace. -/
def storeCallTrimmed : StoreCall → Bool
  | .insert n aid b l => !hasEdgeWS n && !hasEdgeWS aid && optNoEdgeWS b && optNoEdgeWS l
  | .update _ n aid b l => !hasEdgeWS n && !hasEdgeWS aid && optNoEdgeWS b && optNoEdgeWS l
  | .delete _ => true

/-! ### Helper lemmas -/

/-- The head of a trimmed list is never whitespace. -/
theorem isJsWS_head_trimChars (l : List Char) :
    ∀ c, (trimChars l).head? = some c → isJsWS c = false := by
  intro c hc
  obtain ⟨t, ht⟩ := List.rdropWhile_prefix isJsWS (l.dropWhile isJsWS)
  have hv : (l.dropWhile isJsWS).head? = some c := by
    rw [← ht, List.head?_append]
    unfold trimChars at hc
    rw [hc]
    rfl
  have hmatch := List.head?_dropWhile_not isJsWS l
  rw [hv] at hmatch
  exact hmatch

/-- The last element of a trimmed list is never whitespace. -/
theorem isJsWS_getLast_trimChars (l : List Char) :
    ∀ c, (trimChars l).getLast? = some c → isJsWS c = false := by
  intro c hc
  unfold trimChars List.rdropWhile at hc
  rw [List.getLast?_reverse] at hc
  have hmatch := List.head?_dropWhile_not isJsWS (l.dropWhile isJsWS).reverse
  rw [hc] at hmatch
  exact hmatch

/-- A trimmed string never starts or ends with whitespace. -/
theorem hasEdgeWS_jsTrim (s : String) : hasEdgeWS (jsTrim s) = false := by
  have h1 := isJsWS_head_trimChars s.data
  have h2 := isJsWS_getLast_trimChars s.data
  unfold hasEdgeWS jsTrim
  cases hh : (trimChars s.data).head? <;> cases hl : (trimChars s.data).getLast? <;>
    simp_all

/-- A list of whitespace trims to nothing. -/
theorem trimChars_eq_nil_of_all_ws (l : List Char) (h : l.all isJsWS = true) :
    trimChars l = [] := by
  unfold trimChars
  have hd : l.dropWhile isJsWS = [] :=
    List.dropWhile_eq_nil_iff.mpr (fun x hx => List.all_eq_true.mp h x hx)
  rw [hd]
  simp [List.rdropWhile]

/-- Failed validation: the handler stops with one toast holding the first issue. -/
theorem addOrUpdateAgent_invalid (s : ConfigFormState) (e : Option String)
    (m : String) (rest : List String)
    (h : agentSchemaIssues (submittedFields s) = m :: rest) :
    addOrUpdateAgent s e = (s, [.toast "Invalid Input" m true]) := by
  unfold addOrUpdateAgent agentSchemaSafeParse
  rw [h]
  rfl

/-- Valid input, failing store: the mutation then the store's error toast. -/
theorem addOrUpdateAgent_valid_err (s : ConfigFormState) (msg : String)
    (h : agentSchemaIssues (submittedFields s) = []) :
    addOrUpdateAgent s (some msg) =
      (s, [.storeCall (mutationCall s.editingAgentId (trimmedParsed (submittedFields s))),
           .toast "Error" msg true]) := by
  unfold addOrUpdateAgent agentSchemaSafeParse
  rw [h]

/-- Valid input, successful store: mutation, success toast, cleared form, refresh. -/
theorem addOrUpdateAgent_valid_ok (s : ConfigFormState)
    (h : agentSchemaIssues (submittedFields s) = []) :
    addOrUpdateAgent s none =
      (clearedForm,
       [.storeCall (mutationCall s.editingAgentId (trimmedParsed (submittedFields s))),
        successToast s.editingAgentId (trimmedParsed (submittedFields s)),
        .refresh]) := by
  unfold addOrUpdateAgent agentSchemaSafeParse
  rw [h]

/-! ### Claim theorems -/

/-- C1: a submission violating a schema constraint makes addOrUpdateAgent
return before any store call (no insert, no update, no refresh) with exactly
one toast, whose message is that of the first violated constraint in schema
order, never an aggregate. -/
theorem C1_first_violation_blocks_store (s : ConfigFormState) (e : Option String)
    (m : String) (rest : List String)
    (h : agentSchemaIssues (submittedFields s) = m :: rest) :
    addOrUpdateAgent s e = (s, [CEffect.toast "Invalid Input" m true]) ∧
    countStoreCalls (addOrUpdateAgent s e).2 = 0 ∧
    CEffect.refresh ∉ (addOrUpdateAgent s e).2 := by
  have hq := addOrUpdateAgent_invalid s e m rest h
  refine ⟨hq, ?_, ?_⟩
  · rw [hq]
    rfl
  · rw [hq]
    simp

/-- C1 witness: the spec's own scenario, a two-character agent id, is
rejected with only the minimum-length message and no store call. -/
theorem C1_witness :
    addOrUpdateAgent ⟨"Support", "ag", "", "", none⟩ none =
      (⟨"Support", "ag", "", "", none⟩,
       [CEffect.toast "Invalid Input" "Agent ID must be at least 3 characters" true]) :=
  (C1_first_violation_blocks_store ⟨"Support", "ag", "", "", none⟩ none
    "Agent ID must be at least 3 characters" [] (by decide)).1

/-- C2: clicking Start without microphone permission never initializes and
never starts a session: the trace is exactly that of the permission request,
and isInitializing and the session status are untouched, so a second click
is needed to actually start. -/
theorem C2_no_initializing_without_permission (agentId : String)
    (s : ControllerState) (mg ok : Bool) (h : s.isPermissionGranted = false) :
    (startConversation agentId s mg ok).2 = (requestMicrophoneAccess s mg).2 ∧
    hasStartSession (startConversation agentId s mg ok).2 = false ∧
    hasSetInitializingTrue (startConversation agentId s mg ok).2 = false ∧
    ((startConversation agentId s mg ok).1).isInitializing = s.isInitializing ∧
    ((startConversation agentId s mg ok).1).status = s.status := by
  unfold startConversation
  rw [h]
  cases mg <;>
    simp [requestMicrophoneAccess, hasStartSession, hasSetInitializingTrue]

/-- C2 witness: on a fresh card, a Start click with the grant succeeding
still does not start the session and leaves the card idle. -/
theorem C2_witness :
    initialControllerState.isPermissionGranted = false ∧
    hasStartSession (startConversation "agent_123" initialControllerState true true).2
      = false ∧
    ((startConversation "agent_123" initialControllerState true true).1).isInitializing
      = false := by
  refine ⟨rfl, ?_, ?_⟩
  · exact (C2_no_initializing_without_permission "agent_123" initialControllerState
      true true rfl).2.1
  · exact (C2_no_initializing_without_permission "agent_123" initialControllerState
      true true rfl).2.2.2.1

/-- C3: the unmount cleanup ends the session exactly once when the status is
connected at unmount, and never otherwise. -/
theorem C3_unmount_teardown_exactly_once (s : ControllerState) :
    countEndSession (unmountCleanup s) =
      (if s.status = SessionStatus.connected then 1 else 0) := by
  unfold unmountCleanup countEndSession
  split <;> rfl

/-- C3 witness: a connected card tears down once at unmount, a disconnected
one not at all. -/
theorem C3_witness :
    countEndSession (unmountCleanup ⟨true, false, .connected⟩) = 1 ∧
    countEndSession (unmountCleanup ⟨true, false, .disconnected⟩) = 0 := by
  refine ⟨?_, ?_⟩
  · rw [C3_unmount_teardown_exactly_once ⟨true, false, .connected⟩]
    decide
  · rw [C3_unmount_teardown_exactly_once ⟨true, false, .disconnected⟩]
    decide

/-- C4: for a valid submission, a refresh is requested iff the mutation
resolves without error, and the trace places the refresh strictly after the
store call; deletes behave the same; the reload replaces the snapshot
wholesale with the rows of a list ordered by created_at ascending. -/
theorem C4_reload_iff_mutation_success (s : ConfigFormState)
    (h : agentSchemaIssues (submittedFields s) = []) :
    (∀ msg, CEffect.refresh ∉ (addOrUpdateAgent s (some msg)).2) ∧
    ((addOrUpdateAgent s none).2 =
      [CEffect.storeCall (mutationCall s.editingAgentId (trimmedParsed (submittedFields s))),
       successToast s.editingAgentId (trimmedParsed (submittedFields s)),
       CEffect.refresh]) ∧
    (∀ id msg, CEffect.refresh ∉ (removeAgent s id (some msg)).2) ∧
    (∀ id, (removeAgent s id none).2 =
      [CEffect.storeCall (StoreCall.delete id),
       CEffect.toast "Agent Removed" "Agent has been removed from the list" false,
       CEffect.refresh]) ∧
    (∀ rows reg, (loadAgents (.ok rows) reg).1 = rows.map rowToAgent) ∧
    agentsListQuery.orderColumn = "created_at" ∧
    agentsListQuery.ascending = true := by
  refine ⟨?_, ?_, ?_, ?_, ?_, rfl, rfl⟩
  · intro msg
    rw [addOrUpdateAgent_valid_err s msg h]
    simp
  · rw [addOrUpdateAgent_valid_ok s h]
  · intro id msg
    simp [removeAgent]
  · intro id
    rfl
  · intro rows reg
    rfl

/-- C4 witness: the spec's success scenario issues insert, toast, refresh in
that order, while a store failure on the same input issues no refresh. -/
theorem C4_witness :
    (addOrUpdateAgent ⟨"Support", "agent_123", "Helps users", "GPT-4", none⟩ none).2 =
      [CEffect.storeCall
        (StoreCall.insert "Support" "agent_123" (some "Helps users") (some "GPT-4")),
       CEffect.toast "Agent Added" "Support has been added successfully" false,
       CEffect.refresh] ∧
    CEffect.refresh ∉
      (addOrUpdateAgent ⟨"Support", "agent_123", "Helps users", "GPT-4", none⟩
        (some "row-level security violation")).2 := by
  have hq := C4_reload_iff_mutation_success
    ⟨"Support", "agent_123", "Helps users", "GPT-4", none⟩ (by decide)
  refine ⟨?_, hq.1 "row-level security violation"⟩
  rw [hq.2.1]
  decide

/-- C5: every error returns the UI to its stable prior state: validation
failure or store error leave the form and edit flag unchanged (cleared only
on success), a failed mutation requests no reload, a failed session start
ends with isInitializing false and the status unchanged, and no handler
retries (at most one mutation or session start per invocation). -/
theorem C5_errors_return_to_stable_state :
    (∀ s e m rest, agentSchemaIssues (submittedFields s) = m :: rest →
       (addOrUpdateAgent s e).1 = s) ∧
    (∀ s msg, (addOrUpdateAgent s (some msg)).1 = s) ∧
    (∀ s, agentSchemaIssues (submittedFields s) = [] →
       (addOrUpdateAgent s none).1 = clearedForm) ∧
    (∀ s msg, CEffect.refresh ∉ (addOrUpdateAgent s (some msg)).2) ∧
    (∀ s id msg, CEffect.refresh ∉ (removeAgent s id (some msg)).2) ∧
    (∀ a s mg, s.isPermissionGranted = true →
       ((startConversation a s mg false).1).isInitializing = false ∧
       ((startConversation a s mg false).1).status = s.status) ∧
    (∀ a s mg ok, countStartSession (startConversation a s mg ok).2 ≤ 1) ∧
    (∀ s e, countStoreCalls (addOrUpdateAgent s e).2 ≤ 1) := by
  refine ⟨?_, ?_, ?_, ?_, ?_, ?_, ?_, ?_⟩
  · intro s e m rest h
    rw [addOrUpdateAgent_invalid s e m rest h]
  · intro s msg
    cases h : agentSchemaIssues (submittedFields s) with
    | nil => rw [addOrUpdateAgent_valid_err s msg h]
    | cons m rest => rw [addOrUpdateAgent_invalid s (some msg) m rest h]
  · intro s h
    rw [addOrUpdateAgent_valid_ok s h]
  · intro s msg
    cases h : agentSchemaIssues (submittedFields s) with
    | nil =>
      rw [addOrUpdateAgent_valid_err s msg h]
      simp
    | cons m rest =>
      rw [addOrUpdateAgent_invalid s (some msg) m rest h]
      simp
  · intro s id msg
    simp [removeAgent]
  · intro a s mg h
    unfold startConversation
    rw [h]
    simp
  · intro a s mg ok
    unfold startConversation
    cases hp : s.isPermissionGranted <;> cases mg <;> cases ok <;>
      simp [requestMicrophoneAccess, countStartSession]
  · intro s e
    cases h : agentSchemaIssues (submittedFields s) with
    | nil =>
      cases e with
      | none =>
        rw [addOrUpdateAgent_valid_ok s h]
        cases s.editingAgentId <;> simp [countStoreCalls, successToast]
      | some msg =>
        rw [addOrUpdateAgent_valid_err s msg h]
        simp [countStoreCalls]
    | cons m rest =>
      rw [addOrUpdateAgent_invalid s e m rest h]
      simp [countStoreCalls]

/-- C5 witness: a store failure on a valid submission leaves the form intact
and requests no reload, and a failed session start leaves the card idle. -/
theorem C5_witness :
    (addOrUpdateAgent ⟨"Support", "agent_123", "", "", some "row-7"⟩
      (some "permission denied")).1 = ⟨"Support", "agent_123", "", "", some "row-7"⟩ ∧
    CEffect.refresh ∉
      (addOrUpdateAgent ⟨"Support", "agent_123", "", "", some "row-7"⟩
        (some "permission denied")).2 ∧
    ((startConversation "agent_123" ⟨true, false, .disconnected⟩ true false).1).isInitializing
      = false := by
  refine ⟨?_, ?_, ?_⟩
  · exact C5_errors_return_to_stable_state.2.1 _ "permission denied"
  · exact C5_errors_return_to_stable_state.2.2.2.1 _ "permission denied"
  · exact (C5_errors_return_to_stable_state.2.2.2.2.2.1 "agent_123"
      ⟨true, false, .disconnected⟩ true rfl).1

/-- C6: each notification handler fires exactly one toast per transition:
one on connect, one on connection error, one on permission grant, one on
permission denial, one on a failed session start (and none on a successful
start or on disconnect). -/
theorem C6_one_toast_per_transition (n a : String) (s : ControllerState) (mg : Bool) :
    countToasts (onConnectHandler n) = 1 ∧
    countToasts onErrorHandler = 1 ∧
    countToasts (requestMicrophoneAccess s true).2 = 1 ∧
    countToasts (requestMicrophoneAccess s false).2 = 1 ∧
    (s.isPermissionGranted = true →
      countToasts (startConversation a s mg false).2 = 1) ∧
    (s.isPermissionGranted = true →
      countToasts (startConversation a s mg true).2 = 0) ∧
    countToasts onDisconnectHandler = 0 := by
  refine ⟨rfl, rfl, rfl, rfl, ?_, ?_, rfl⟩
  · intro h
    unfold startConversation
    rw [h]
    rfl
  · intro h
    unfold startConversation
    rw [h]
    rfl

/-- C6 witness: concrete grant, failed start and connect traces each carry
exactly one toast. -/
theorem C6_witness :
    countToasts (onConnectHandler "Support") = 1 ∧
    countToasts (requestMicrophoneAccess initialControllerState true).2 = 1 ∧
    countToasts
      (startConversation "agent_123" ⟨true, false, .disconnected⟩ true false).2 = 1 := by
  refine ⟨?_, ?_, ?_⟩
  · exact (C6_one_toast_per_transition "Support" "agent_123"
      initialControllerState true).1
  · exact (C6_one_toast_per_transition "Support" "agent_123"
      initialControllerState true).2.2.1
  · exact (C6_one_toast_per_transition "Support" "agent_123"
      ⟨true, false, .disconnected⟩ true).2.2.2.2.1 rfl

/-- C7 counterexample: the claim that the submit control is disabled while
its handler is pending is false: the Add/Update button carries no disabled
attribute, so in the form state of a pending submission it is still enabled. -/
theorem C7_counterexample :
    ¬ ∀ s : ConfigFormState, addOrUpdateButtonDisabled s = true := by
  intro h
  exact absurd (h ⟨"Support", "agent_123", "Helps users", "GPT-4", none⟩) (by decide)

/-- C7 amended: only the connect control is guarded: the Start button is
disabled exactly while isInitializing, and a permitted start sets that flag
before anything else; the form's submit button is never disabled, so the UI
does not prevent concurrent form submissions. -/
theorem C7_only_connect_control_guarded :
    (∀ c : ControllerState, startButtonDisabled c = c.isInitializing) ∧
    (∀ a s mg ok, s.isPermissionGranted = true →
       ((startConversation a s mg ok).2).head? = some (VEvent.setInitializing true)) ∧
    (∀ s : ConfigFormState, addOrUpdateButtonDisabled s = false) := by
  refine ⟨fun c => rfl, ?_, fun s => rfl⟩
  intro a s mg ok h
  unfold startConversation
  rw [h]
  cases ok <;> rfl

/-- C7 amended witness: on a permitted card the start trace begins by
disabling the button, while a mid-submission form state stays enabled. -/
theorem C7_witness :
    ((startConversation "agent_123" ⟨true, false, .disconnected⟩ true true).2).head?
      = some (VEvent.setInitializing true) ∧
    addOrUpdateButtonDisabled ⟨"Support", "agent_123", "Helps users", "GPT-4", none⟩
      = false := by
  refine ⟨?_, ?_⟩
  · exact C7_only_connect_control_guarded.2.1 "agent_123"
      ⟨true, false, .disconnected⟩ true true rfl
  · exact C7_only_connect_control_guarded.2.2
      ⟨"Support", "agent_123", "Helps users", "GPT-4", none⟩

/-- C8: all four fields are trimmed before any check and before storing: a
whitespace-only name is rejected with the required message and no store
call; the length and pattern checks read the trimmed value; and every value
a mutation writes is free of leading and trailing whitespace. -/
theorem C8_fields_trimmed_before_checks_and_store (s : ConfigFormState)
    (e : Option String) (f : AgentFields)
    (hws : s.newAgentName.data.all isJsWS = true) :
    addOrUpdateAgent s e =
      (s, [CEffect.toast "Invalid Input" "Agent name is required" true]) ∧
    (nameIssues f.name = [] ↔
      1 ≤ (jsTrim f.name).length ∧ (jsTrim f.name).length ≤ 100) ∧
    (agentIdIssues f.agentId = [] ↔
      matchesAgentIdPattern (jsTrim f.agentId) = true ∧
      3 ≤ (jsTrim f.agentId).length ∧ (jsTrim f.agentId).length ≤ 100) ∧
    (∀ s' : ConfigFormState, agentSchemaIssues (submittedFields s') = [] →
      storeCallTrimmed
        (mutationCall s'.editingAgentId (trimmedParsed (submittedFields s'))) = true ∧
      (addOrUpdateAgent s' none).2.head? =
        some (CEffect.storeCall
          (mutationCall s'.editingAgentId (trimmedParsed (submittedFields s'))))) := by
  have hopt : ∀ o : Option String, optNoEdgeWS (orNull (o.map jsTrim)) = true := by
    intro o
    cases o with
    | none => rfl
    | some b =>
      show optNoEdgeWS (if jsTrim b = "" then none else some (jsTrim b)) = true
      split_ifs with hb
      · rfl
      · simp [optNoEdgeWS, hasEdgeWS_jsTrim]
  refine ⟨?_, ?_, ?_, ?_⟩
  · have htrim : trimChars s.newAgentName.data = [] :=
      trimChars_eq_nil_of_all_ws _ hws
    have hname : nameIssues s.newAgentName = ["Agent name is required"] := by
      unfold nameIssues jsTrim
      rw [htrim]
      decide
    have hiss : agentSchemaIssues (submittedFields s) =
        "Agent name is required" ::
          (agentIdIssues s.newAgentId ++
           (bioIssues (orUndefined s.newAgentBio) ++
            llmIssues (orUndefined s.newAgentLlm))) := by
      unfold agentSchemaIssues
      rw [show (submittedFields s).name = s.newAgentName from rfl, hname]
      simp [submittedFields]
    exact addOrUpdateAgent_invalid s e _ _ hiss
  · unfold nameIssues
    split_ifs <;> first | (simp_all; omega) | simp_all
  · unfold agentIdIssues
    split_ifs <;> first | (simp_all; omega) | simp_all
  · intro s' h
    constructor
    · cases s'.editingAgentId <;>
        simp [mutationCall, trimmedParsed, storeCallTrimmed, submittedFields,
          hasEdgeWS_jsTrim, hopt]
    · rw [addOrUpdateAgent_valid_ok s' h]
      rfl

/-- C8 witness: a blank name is rejected as required, and a submission with
padded name and bio stores only trimmed values. -/
theorem C8_witness :
    addOrUpdateAgent ⟨"   ", "agent_123", "", "", none⟩ none =
      (⟨"   ", "agent_123", "", "", none⟩,
       [CEffect.toast "Invalid Input" "Agent name is required" true]) ∧
    storeCallTrimmed
      (mutationCall (none : Option String)
        (trimmedParsed (submittedFields ⟨" Support ", "agent_123", " bio ", "", none⟩)))
      = true := by
  have hq := C8_fields_trimmed_before_checks_and_store
    ⟨"   ", "agent_123", "", "", none⟩ none ⟨"x", "xyz", none, none⟩ (by decide)
  refine ⟨hq.1, ?_⟩
  have hv := hq.2.2.2 ⟨" Support ", "agent_123", " bio ", "", none⟩ (by decide)
  exact hv.1

/-- C9: removeAgent never touches the form fields or the edit-mode flag:
whatever the store answers, the form state is returned unchanged, including
when the record being deleted is the one loaded for editing, whose id the
submit action still targets. -/
theorem C9_remove_preserves_form (s : ConfigFormState) (id : String)
    (e : Option String) :
    (removeAgent s id e).1 = s ∧
    (∀ a : Agent, (removeAgent (editAgent a) a.id e).1 = editAgent a ∧
      ((removeAgent (editAgent a) a.id e).1).editingAgentId = some a.id) := by
  have hgen : ∀ (s' : ConfigFormState) (i : String), (removeAgent s' i e).1 = s' := by
    intro s' i
    unfold removeAgent
    cases e <;> rfl
  refine ⟨hgen s id, fun a => ⟨hgen (editAgent a) a.id, ?_⟩⟩
  rw [hgen (editAgent a) a.id]
  rfl

/-- C9 witness: deleting the very record loaded for editing leaves the
pre-filled form in edit mode targeting the deleted id. -/
theorem C9_witness :
    (removeAgent (editAgent ⟨"row-7", "Support", "agent_123", "Helps users", some "GPT-4"⟩)
        "row-7" none).1
      = editAgent ⟨"row-7", "Support", "agent_123", "Helps users", some "GPT-4"⟩ ∧
    ((removeAgent (editAgent ⟨"row-7", "Support", "agent_123", "Helps users", some "GPT-4"⟩)
        "row-7" none).1).editingAgentId = some "row-7" :=
  (C9_remove_preserves_form clearedForm "row-7" none).2
    ⟨"row-7", "Support", "agent_123", "Helps users", some "GPT-4"⟩

/-- C10: microphone permission is per card and sticky: a fresh card starts
without it, a grant sets it and nothing clears it (denial, session stop,
failed or successful session start all preserve it), and once granted every
Start click issues the session start directly without requesting the
microphone again. -/
theorem C10_permission_sticky :
    initialControllerState.isPermissionGranted = false ∧
    (∀ s g, ((requestMicrophoneAccess s g).1).isPermissionGranted
        = (s.isPermissionGranted || g)) ∧
    (∀ a s mg ok, s.isPermissionGranted = true →
      ((startConversation a s mg ok).1).isPermissionGranted = true ∧
      hasStartSession (startConversation a s mg ok).2 = true ∧
      VEvent.getUserMedia ∉ (startConversation a s mg ok).2) ∧
    (∀ s, ((stopConversation s).1).isPermissionGranted = s.isPermissionGranted) := by
  refine ⟨rfl, ?_, ?_, fun s => rfl⟩
  · intro s g
    unfold requestMicrophoneAccess
    cases g <;> simp
  · intro a s mg ok h
    unfold startConversation
    rw [h]
    cases ok <;> simp [hasStartSession, h]

/-- C10 witness: after a grant on a fresh card, a Start click with a failing
session start still leaves permission granted and calls startSession. -/
theorem C10_witness :
    ((requestMicrophoneAccess initialControllerState true).1).isPermissionGranted
      = true ∧
    ((startConversation "agent_123" ⟨true, false, .disconnected⟩ true false).1).isPermissionGranted
      = true ∧
    hasStartSession
      (startConversation "agent_123" ⟨true, false, .disconnected⟩ true false).2
      = true := by
  refine ⟨?_, ?_, ?_⟩
  · rw [C10_permission_sticky.2.1 initialControllerState true]
    rfl
  · exact (C10_permission_sticky.2.2.1 "agent_123"
      ⟨true, false, .disconnected⟩ true false rfl).1
  · exact (C10_permission_sticky.2.2.1 "agent_123"
      ⟨true, false, .disconnected⟩ true false rfl).2.1

end Igloo
